import Mathlib

/-!
Verification of the product-scrapper backend core against its specification.

The development shallowly embeds the TypeScript services of the repository:

* `SelectorExtractorService` (src/services/selector-extractor.service.ts)
* `PaginationService`        (src/services/pagination.service.ts)
* `ScraperService`           (src/services/scraper.service.ts)
* `OpenAIService`            (src/services/openai.service.ts)
* `MultiStoreSearchService`  (multi-store-search.service.ts)

JavaScript strings are Lean `String`s, JavaScript numbers are `ℚ` (with
`Math.round` producing `ℤ`), `undefined`/absent values are `Option`, and a
thrown exception is `Except.error`.  Rendered pages are modelled after the
point at which cheerio has parsed them: a `Page` answers selector queries with
elements.  Browser rendering, timing and logging are not modelled; navigation
outcomes are supplied by a `World` value so that every possible behaviour of
the remote sites and of the LLM collaborator is quantified over.

All rational values are assembled with `mkRat` from integer arithmetic and all
string manipulation is done on character lists, so that every definition
evaluates inside the kernel on concrete inputs.
-/

namespace Scraper

/-! ## JavaScript string and number primitives -/

/-- JS `String.prototype.trim` on the character list: drop whitespace from
both ends. -/
def jsTrimChars (l : List Char) : List Char :=
  ((l.dropWhile Char.isWhitespace).reverse.dropWhile Char.isWhitespace).reverse

/-- JS `String.prototype.trim`. -/
def jsTrim (s : String) : String :=
  ⟨jsTrimChars s.data⟩

/-- Decimal value of a digit list (most significant first). -/
def digitsVal (l : List Char) : ℕ :=
  l.foldl (fun n c => 10 * n + (c.toNat - 48)) 0

/-- Splits an optional leading sign off a character list, returning the sign
as an integer factor. -/
def splitSign (cs : List Char) : ℤ × List Char :=
  match cs with
  | c :: rest =>
    if c = '-' then (-1, rest)
    else if c = '+' then (1, rest)
    else (1, c :: rest)
  | [] => (1, [])

/-- JS `parseFloat`: skip leading whitespace, optional sign, decimal digits
with an optional fraction and an optional exponent; trailing garbage is
ignored; `none` models `NaN`.  The value
`sign · (ip.fp) · 10^e` is assembled as a single `mkRat` fraction. -/
def jsParseFloat (s : String) : Option ℚ :=
  let sc := splitSign (jsTrim s).data
  let ip := sc.2.takeWhile Char.isDigit
  let cs1 := sc.2.dropWhile Char.isDigit
  let fpRest : List Char × List Char :=
    match cs1 with
    | c :: rest =>
      if c = '.' then (rest.takeWhile Char.isDigit, rest.dropWhile Char.isDigit)
      else ([], c :: rest)
    | [] => ([], [])
  let fp := fpRest.1
  if ip = [] ∧ fp = [] then none
  else
    let n : ℕ := digitsVal ip * 10 ^ fp.length + digitsVal fp
    let expVal : Option ℤ :=
      match fpRest.2 with
      | c :: rest =>
        if c = 'e' ∨ c = 'E' then
          let esc := splitSign rest
          let ed := esc.2.takeWhile Char.isDigit
          if ed = [] then none
          else some (esc.1 * (digitsVal ed : ℤ))
        else none
      | [] => none
    match expVal with
    | some e =>
      if 0 ≤ e then some (mkRat (sc.1 * n * 10 ^ e.toNat) (10 ^ fp.length))
      else some (mkRat (sc.1 * n) (10 ^ (fp.length + (-e).toNat)))
    | none => some (mkRat (sc.1 * n) (10 ^ fp.length))

/-- JS `parseInt` in base 10: skip leading whitespace, optional sign, then
leading decimal digits; `none` models `NaN`.  (The `0x` auto-radix of
`parseInt` is not modelled; no call site feeds it hexadecimal text.) -/
def jsParseInt (s : String) : Option ℤ :=
  let sc := splitSign (jsTrim s).data
  let d := sc.2.takeWhile Char.isDigit
  if d = [] then none
  else some (sc.1 * (digitsVal d : ℤ))

/-- JS `Math.round`: round half toward positive infinity,
`⌊q + 1/2⌋ = (2·num + den) divided by (2·den)` with flooring division. -/
def jsRound (q : ℚ) : ℤ :=
  (2 * q.num + (q.den : ℤ)) / (2 * (q.den : ℤ))

/-- The regex `/^\d+\.?\d*e[+-]?\d+$/i` of
`SelectorExtractorService.extractPrice`, which recognises scientific price
notation. -/
def isSciNotation (s : String) : Bool :=
  let cs := s.data
  let d1 := cs.takeWhile Char.isDigit
  let cs1 := cs.dropWhile Char.isDigit
  if d1.isEmpty then false
  else
    let cs2 :=
      match cs1 with
      | c :: rest => if c = '.' then rest else c :: rest
      | [] => []
    let cs3 := cs2.dropWhile Char.isDigit
    match cs3 with
    | c :: rest =>
      if c = 'e' ∨ c = 'E' then
        let rest2 :=
          match rest with
          | d :: r2 => if d = '+' ∨ d = '-' then r2 else d :: r2
          | [] => []
        !(rest2.takeWhile Char.isDigit).isEmpty && (rest2.dropWhile Char.isDigit).isEmpty
      else false
    | [] => false

/-- The cleanup `priceStr.replace(/[^\d.]/g, '')`: keep only digits and
decimal points. -/
def stripNonNumeric (s : String) : String :=
  ⟨s.data.filter (fun c => c.isDigit || c = '.')⟩

/-- JS `a.includes(b)` on strings: substring containment. -/
def jsIncludes (s sub : String) : Bool :=
  decide (sub.data <:+: s.data)

/-- JS `s.startsWith(pre)`. -/
def jsStartsWith (s pre : String) : Bool :=
  pre.data.isPrefixOf s.data

/-- JS `s.toLowerCase()` (ASCII case folding suffices for the selectors and
queries the code handles). -/
def jsToLower (s : String) : String :=
  ⟨s.data.map Char.toLower⟩

/-- Replace the first occurrence of `pat` in a character list. -/
def replaceFirstChars (pat rep : List Char) : List Char → List Char
  | [] => if pat.isPrefixOf ([] : List Char) then rep else []
  | c :: t =>
    if pat.isPrefixOf (c :: t) then rep ++ (c :: t).drop pat.length
    else c :: replaceFirstChars pat rep t

/-- JS `s.replace(pat, rep)` with a string pattern: replace the first
occurrence only. -/
def replaceFirst (s pat rep : String) : String :=
  ⟨replaceFirstChars pat.data rep.data s.data⟩

/-- Split a character list at every occurrence of `sep` (JS
`String.prototype.split` with a single-character separator). -/
def splitChar (sep : Char) : List Char → List (List Char)
  | [] => [[]]
  | c :: t =>
    match splitChar sep t with
    | [] => if c = sep then [[], []] else [[c]]
    | h :: rt => if c = sep then [] :: h :: rt else (c :: h) :: rt

/-- JS `s.split(sep)` for a one-character separator. -/
def jsSplit (s : String) (sep : Char) : List String :=
  (splitChar sep s.data).map (fun l => ⟨l⟩)

end Scraper

namespace Scraper

/-- Decidable equality on `Except` results, for evaluating the embedding at
concrete inputs. -/
instance {ε α : Type _} [DecidableEq ε] [DecidableEq α] : DecidableEq (Except ε α) :=
  fun a b =>
    match a, b with
    | .ok x, .ok y =>
      if h : x = y then .isTrue (congrArg Except.ok h)
      else .isFalse (fun hh => h (Except.ok.inj hh))
    | .error x, .error y =>
      if h : x = y then .isTrue (congrArg Except.error h)
      else .isFalse (fun hh => h (Except.error.inj hh))
    | .ok _, .error _ => .isFalse (fun hh => Except.noConfusion hh)
    | .error _, .ok _ => .isFalse (fun hh => Except.noConfusion hh)

/-! ## Model of the WHATWG URL constructor

`new URL(s)` and `new URL(rel, base)` are platform built-ins.  They are
modelled for the `scheme://host[:port][/path][?query]` shapes the scraper
meets; a failed parse models the constructor throwing. -/

structure UrlParts where
  scheme : String
  host : String
  port : String
  path : String
  query : String
deriving DecidableEq

/-- `URL.origin`. -/
def UrlParts.origin (u : UrlParts) : String :=
  u.scheme ++ "://" ++ u.host ++ (if u.port = "" then "" else ":" ++ u.port)

/-- `URL.hostname` (the host without the port). -/
def UrlParts.hostname (u : UrlParts) : String :=
  u.host

/-- Model of `new URL(s)`: `none` models a thrown `TypeError`. -/
def jsParseUrl (s : String) : Option UrlParts :=
  let cs := s.data
  let scheme := cs.takeWhile (fun c => c.isAlpha || c.isDigit || c = '+' || c = '-' || c = '.')
  let schemeOk :=
    match scheme with
    | c :: _ => c.isAlpha
    | [] => false
  let rest := cs.drop scheme.length
  if schemeOk && "://".data.isPrefixOf rest then
    let rest2 := rest.drop 3
    let host := rest2.takeWhile (fun c => c ≠ '/' && c ≠ '?' && c ≠ '#' && c ≠ ':')
    let rest3 := rest2.drop host.length
    let portRest : List Char × List Char :=
      match rest3 with
      | ':' :: r4 => (r4.takeWhile Char.isDigit, r4.dropWhile Char.isDigit)
      | _ => ([], rest3)
    let afterAuthority := portRest.2
    let authorityEndsOk :=
      match afterAuthority with
      | [] => true
      | c :: _ => c = '/' || c = '?' || c = '#'
    if host.isEmpty || !authorityEndsOk then none
    else
      let path := afterAuthority.takeWhile (fun c => c ≠ '?' && c ≠ '#')
      let afterPath := afterAuthority.drop path.length
      let query :=
        match afterPath with
        | '?' :: qs => qs.takeWhile (fun c => c ≠ '#')
        | _ => []
      some { scheme := ⟨scheme⟩, host := ⟨host⟩, port := ⟨portRest.1⟩,
             path := ⟨path⟩, query := ⟨query⟩ }
  else none

/-- The directory part of a path, up to and including the last slash
(used to model relative resolution `new URL(rel, base)`). -/
def dirPrefix (p : String) : String :=
  let r := p.data.reverse.dropWhile (fun c => c ≠ '/')
  if r.isEmpty then "/" else ⟨r.reverse⟩

/-- `URLSearchParams.get(name)` on the query string of `u` (percent-decoding
is not modelled; the pagination configs use plain parameter names). -/
def getQueryParam (u : UrlParts) (name : String) : Option String :=
  let pairs := (splitChar '&' u.query.data).map (fun kv =>
    (⟨kv.takeWhile (fun c => c ≠ '=')⟩, (kv.dropWhile (fun c => c ≠ '=')).drop 1))
  (pairs.find? (fun kv => kv.1 == (name : String))).map (fun kv => (⟨kv.2⟩ : String))

/-! ## Data model (src/types/store-config.types.ts) -/

/-- `ProductListSelectors.selectors`. -/
structure FieldSelectors where
  url : String
  url_attribute : String
  title : String
  title_attribute : String
  price : String
  price_attribute : String
  currency : Option String := none
  currency_attribute : Option String := none
  image : Option String := none
  image_attribute : Option String := none
  availability : Option String := none
  availability_attribute : Option String := none

/-- `ProductListSelectors`. -/
structure ProductListSelectors where
  container : String
  item : String
  selectors : FieldSelectors

/-- `PaginationConfig`. -/
structure PaginationConfig where
  enabled : Bool
  next_button : String
  next_button_attribute : String
  max_pages : Option ℕ := none
  page_param : Option String := none
  current_page_selector : Option String := none
  total_pages_selector : Option String := none

/-- `ScrapingConfig` (only the field that affects the modelled data flow;
`wait_time`, `scroll`, `user_agent` and the selector waits only steer the
browser session). -/
structure ScrapingConfig where
  pagination : Option PaginationConfig := none

/-- `SearchConfig` (the `params` list is never read by the core). -/
structure SearchConfig where
  url_template : String

/-- `StoreConfig` (the fields the modelled services read). -/
structure StoreConfig where
  name : String
  currency : String
  search : SearchConfig
  product_list : ProductListSelectors
  scraping : ScrapingConfig

/-- `ExtractedProduct` as produced by the extractor: the raw record, price
still a JS number. -/
structure ExtractedProduct where
  url : String
  product_name : String
  price : ℚ
  currency : Option String := none
  image : Option String := none
  availability : Option String := none
deriving DecidableEq

/-- The normalized listing record (the shape `normalizeProducts` emits and
the coordinator's `SimpleProduct` consumes): integer price, availability
deliberately absent (`none`). -/
structure SimpleProduct where
  url : String
  product_name : String
  price : ℤ
  currency : Option String := none
  image : Option String := none
  availability : Option String := none
deriving DecidableEq

/-! ## Model of a cheerio-parsed page -/

/-- One DOM element as cheerio exposes it to the extractor. -/
structure Elem where
  text : String
  innerHtml : Option String := none
  attrs : List (String × String) := []

/-- `elem.attr(name)`. -/
def Elem.attr (e : Elem) (name : String) : Option String :=
  e.attrs.lookup name

/-- One repeating item node: the first element each field selector matches
below it (`$item.find(selector)`), or no entry when the selector matches
nothing. -/
def Item : Type := List (String × Elem)

/-- A rendered, cheerio-parsed page. -/
structure Page where
  /-- Page-level `$(selector)` lookups (pagination controls): the first
  matched element per selector. -/
  pageElems : List (String × Elem) := []
  /-- Container selectors that match at least one element. -/
  containerFound : List String := []
  /-- For a (container, item) selector pair, the repeating item nodes. -/
  containerItems : List ((String × String) × List Item) := []

/-- Page-level `$(selector)`: `none` models an empty matched set. -/
def Page.query (p : Page) (selector : String) : Option Elem :=
  p.pageElems.lookup selector

/-! ## SelectorExtractorService -/

/-- JS truthiness of an optional string: present and non-empty. -/
def optTruthy (o : Option String) : Bool :=
  match o with
  | some s => s ≠ ""
  | none => false

/-- `o || d` for an optional string: the JS default-on-falsy idiom. -/
def jsOrDefault (o : Option String) (d : String) : String :=
  match o with
  | some s => if s = "" then d else s
  | none => d

/-- `SelectorExtractorService.extractAttribute`: read text, inner markup or a
named attribute of the first element the selector matches; empty string when
nothing matches. -/
def extractAttribute (item : Item) (selector attrName : String) : String :=
  match List.lookup selector item with
  | none => ""
  | some e =>
    if attrName = "text" then jsTrim e.text
    else if attrName = "html" then
      match e.innerHtml with
      | some h => jsTrim h
      | none => ""
    else
      match e.attr attrName with
      | some v => jsTrim v
      | none => ""

/-- The price-parsing part of `SelectorExtractorService.extractPrice`:
scientific notation is recognised as a distinct case, otherwise every
character that is not a digit or dot is stripped before `parseFloat`;
`NaN` falls back to `0`. -/
def extractPriceText (s : String) : ℚ :=
  if s = "" then 0
  else if isSciNotation (jsTrim s) then (jsParseFloat s).getD 0
  else (jsParseFloat (stripNonNumeric s)).getD 0

/-- `SelectorExtractorService.extractPrice`. -/
def extractPrice (item : Item) (selector attrName : String) : ℚ :=
  extractPriceText (extractAttribute item selector attrName)

/-- The record built for one item node inside `extractProductList`'s loop. -/
def extractOne (config : StoreConfig) (item : Item) : ExtractedProduct :=
  let pl := config.product_list
  { url := extractAttribute item pl.selectors.url pl.selectors.url_attribute
    product_name := extractAttribute item pl.selectors.title pl.selectors.title_attribute
    price := extractPrice item pl.selectors.price pl.selectors.price_attribute
    currency :=
      if optTruthy pl.selectors.currency then
        some (extractAttribute item (pl.selectors.currency.getD "")
          (jsOrDefault pl.selectors.currency_attribute "text"))
      else some config.currency
    image :=
      if optTruthy pl.selectors.image then
        some (extractAttribute item (pl.selectors.image.getD "")
          (jsOrDefault pl.selectors.image_attribute "src"))
      else none
    availability :=
      if optTruthy pl.selectors.availability then
        some (extractAttribute item (pl.selectors.availability.getD "")
          (jsOrDefault pl.selectors.availability_attribute "text"))
      else none }

/-- `SelectorExtractorService.extractProductList`: locate the container, then
each item node, build the record, and keep it only when it has a non-empty
name and a positive parsed price. -/
def extractProductList (page : Page) (config : StoreConfig) : List ExtractedProduct :=
  let pl := config.product_list
  if page.containerFound.contains pl.container then
    let items := (page.containerItems.lookup (pl.container, pl.item)).getD []
    items.filterMap (fun item =>
      let product := extractOne config item
      if product.product_name ≠ "" ∧ 0 < product.price then some product else none)
  else []

/-- `SelectorExtractorService.makeAbsoluteUrl`: empty urls fall back to the
base, absolute urls pass through, root-relative urls are glued to the base
origin, other urls resolve against the base; any `URL` failure yields the
base. -/
def makeAbsoluteUrl (url baseUrl : String) : String :=
  if url = "" then baseUrl
  else if jsStartsWith url "http://" || jsStartsWith url "https://" then url
  else
    match jsParseUrl baseUrl with
    | none => baseUrl
    | some base =>
      if jsStartsWith url "/" then base.origin ++ url
      else base.origin ++ dirPrefix base.path ++ url

/-- The body of `SelectorExtractorService.normalizeProducts` for one record:
absolute urls, trimmed name, rounded integer price, availability dropped. -/
def normalizeOne (baseUrl : String) (product : ExtractedProduct) : SimpleProduct :=
  { url := makeAbsoluteUrl product.url baseUrl
    product_name := jsTrim product.product_name
    price := jsRound product.price
    currency := if optTruthy product.currency then product.currency else none
    image :=
      match product.image with
      | some img => if img ≠ "" then some (makeAbsoluteUrl img baseUrl) else none
      | none => none
    availability := none }

/-- `SelectorExtractorService.normalizeProducts`. -/
def normalizeProducts (products : List ExtractedProduct) (baseUrl : String) :
    List SimpleProduct :=
  products.map (normalizeOne baseUrl)

end Scraper

namespace Scraper

/-! ## PaginationService -/

/-- The `PaginationInfo` object `detectPagination` returns.  JS records are
open: `scrapeWithSelectors` reads `paginationInfo.nextUrl`, a property
`detectPagination` never assigns (it assigns `nextPageUrl`), so that access
yields `undefined`.  The phantom field `nextUrl` models exactly this: it is
`none` on every object `detectPagination` builds. -/
structure PaginationInfo where
  hasNextPage : Bool
  nextPageUrl : Option String := none
  currentPage : Option ℤ := none
  totalPages : Option ℤ := none
  /-- Never assigned by `detectPagination`; read by the scrape loop. -/
  nextUrl : Option String := none
deriving DecidableEq

/-- `parseInt(text) || undefined`: `NaN` and `0` both collapse to
`undefined`. -/
def parseIntOrUndef (s : String) : Option ℤ :=
  match jsParseInt s with
  | some n => if n = 0 then none else some n
  | none => none

/-- `$(selector).text()` at page level: empty string on an empty matched
set. -/
def pageText (page : Page) (selector : String) : String :=
  match page.query selector with
  | some e => e.text
  | none => ""

/-- `PaginationService.detectPagination`.  `Except.error` models the
uncaught `TypeError` of `new URL(currentUrl)` on an invalid current url. -/
def detectPagination (page : Page) (config : PaginationConfig) (currentUrl : String) :
    Except String PaginationInfo :=
  if !config.enabled then .ok { hasNextPage := false }
  else
    match page.query config.next_button with
    | none => .ok { hasNextPage := false }
    | some nextButton =>
      let rawNext :=
        if config.next_button_attribute = "text" then jsTrim nextButton.text
        else
          match nextButton.attr config.next_button_attribute with
          | some v => jsTrim v
          | none => ""
      if rawNext = "" then .ok { hasNextPage := false }
      else
        let absNext : Except String String :=
          if jsStartsWith rawNext "http" then .ok rawNext
          else
            match jsParseUrl currentUrl with
            | none => .error "Invalid URL"
            | some u =>
              .ok (if jsStartsWith rawNext "/" then u.origin ++ rawNext
                   else u.origin ++ "/" ++ rawNext)
        match absNext with
        | .error e => .error e
        | .ok nextPage =>
          let cpSel : Option ℤ :=
            match config.current_page_selector with
            | some sel => parseIntOrUndef (jsTrim (pageText page sel))
            | none => none
          let cpRes : Except String (Option ℤ) :=
            if cpSel.isNone then
              match config.page_param with
              | some pp =>
                match jsParseUrl currentUrl with
                | none => .error "Invalid URL"
                | some u =>
                  match getQueryParam u pp with
                  | some str =>
                    if str = "" then .ok (some 1)
                    else .ok (jsParseInt str)
                  | none => .ok (some 1)
              | none => .ok none
            else .ok cpSel
          match cpRes with
          | .error e => .error e
          | .ok currentPage =>
            let totalPages : Option ℤ :=
              match config.total_pages_selector with
              | some sel => parseIntOrUndef (jsTrim (pageText page sel))
              | none => none
            .ok { hasNextPage := true, nextPageUrl := some nextPage,
                  currentPage := currentPage, totalPages := totalPages }

/-- `PaginationService.shouldContinuePagination`.  (No caller in the
repository invokes it: the scrape loop decides continuation by itself.) -/
def shouldContinuePagination (currentPageNum : ℕ) (config : PaginationConfig)
    (info : PaginationInfo) : Bool :=
  if (match config.max_pages with
      | some m => m ≠ 0 && m ≤ currentPageNum
      | none => false) then false
  else if !(info.hasNextPage && optTruthy info.nextPageUrl) then false
  else if (match info.totalPages, info.currentPage with
           | some t, some c => t ≠ 0 && c ≠ 0 && t ≤ c
           | _, _ => false) then false
  else true

/-! ## The world: remote sites, config directory, LLM collaborator -/

/-- `ScrapeOptions` (src/types/product.types.ts is not under src/; the fields
are those the call sites use). -/
structure ScrapeOptions where
  maxPages : Option ℕ := none
  waitFor : Option ℕ := none

/-- Everything outside the modelled services: the rendered pages navigation
produces, the YAML config directory, the platform URL encoder, and the
parsed replies of the LLM collaborator.  Quantifying theorems over a `World`
quantifies over every behaviour of those collaborators. -/
structure World where
  /-- `PlaywrightService.scrapeUrl`: the rendered, parsed page for a url, or
  the navigation failure it throws. -/
  fetch : String → Except String Page
  /-- The YAML config directory: domain ↦ `StoreConfig`. -/
  configs : List (String × StoreConfig)
  /-- Platform `encodeURIComponent`. -/
  encode : String → String
  /-- Parsed `selected_indices` of the LLM reply inside
  `filterProductsByRelevance` (argument: the analysed products, the query,
  `topN`); `error` models any throw in that call, including a missing
  response text. -/
  filterResponse : List SimpleProduct → String → ℕ → Except String (List ℤ)
  /-- Parsed `selected_indices` inside `applyNaturalLanguageFilter`. -/
  nlFilterResponse : List SimpleProduct → String → Except String (List ℤ)
  /-- `sortProductsBySimilarity` reply: `ok none` models a missing response
  text, `error` a throw (including the 30s timeout). -/
  sortResponse : Except String (Option (List ℤ))

/-! ## StoreConfigService -/

/-- `getDomainVariants`: the domain itself, then the `www.`-toggled
variant. -/
def getDomainVariants (domain : String) : List String :=
  if jsStartsWith domain "www." then [domain, ⟨domain.data.drop 4⟩]
  else [domain, "www." ++ domain]

/-- `StoreConfigService.getConfig`: first domain variant whose YAML file
exists. -/
def getConfig (w : World) (domain : String) : Option StoreConfig :=
  match (getDomainVariants domain).filterMap (fun v => w.configs.lookup v) with
  | c :: _ => some c
  | [] => none

/-- `StoreConfigService.getConfigFromUrl`: hostname lookup; an invalid url is
caught and yields `null`. -/
def getConfigFromUrl (w : World) (url : String) : Option StoreConfig :=
  match jsParseUrl url with
  | none => none
  | some u => getConfig w u.hostname

/-- `StoreConfigService.buildSearchUrl`: template substitution with
percent-encoding of the query. -/
def buildSearchUrl (w : World) (domain query : String) : Option String :=
  (getConfig w domain).map (fun c =>
    replaceFirst c.search.url_template "{query}" (w.encode query))

/-- `StoreConfigService.listAvailableStores`: the YAML file names. -/
def listAvailableStores (w : World) : List String :=
  w.configs.map (fun kv => kv.1)

/-! ## ScraperService -/

/-- Result of the page loop of `scrapeWithSelectors`: accumulated raw
records, how many page fetches were issued (a ghost count for the
page-budget claims; the source reports the final `pageNumber` in its
summary), and the error that aborted the loop, if any. -/
structure LoopOut where
  products : List ExtractedProduct
  fetches : ℕ
  err : Option String
deriving DecidableEq

/-- The `while (true)` page loop of `ScraperService.scrapeWithSelectors`
(fetch, extract, accumulate, decide continuation).  `fuel` bounds the number
of iterations so the model is total; one unit is always enough (see the
page-budget theorems) because the loop reads `paginationInfo.nextUrl`, which
`detectPagination` never sets. -/
def scrapeLoop (w : World) (config : StoreConfig) :
    ℕ → String → ℕ → List ExtractedProduct → LoopOut
  | 0, _, pageNumber, acc =>
    { products := acc, fetches := pageNumber - 1, err := some "loop fuel exhausted" }
  | fuel + 1, currentUrl, pageNumber, acc =>
    match w.fetch currentUrl with
    | .error e => { products := acc, fetches := pageNumber, err := some e }
    | .ok page =>
      let products := extractProductList page config
      let acc2 := acc ++ products
      let paginationEnabled :=
        match config.scraping.pagination with
        | some p => p.enabled
        | none => false
      if !paginationEnabled then { products := acc2, fetches := pageNumber, err := none }
      else
        match config.scraping.pagination with
        | none => { products := acc2, fetches := pageNumber, err := none }
        | some pconf =>
          match detectPagination page pconf currentUrl with
          | .error e => { products := acc2, fetches := pageNumber, err := some e }
          | .ok info =>
            if info.hasNextPage && optTruthy info.nextUrl then
              scrapeLoop w config fuel (info.nextUrl.getD "") (pageNumber + 1) acc2
            else { products := acc2, fetches := pageNumber, err := none }

/-- `ScraperResult` (the fields the callers read; `source`, `timestamp`,
`summary` and `method` are presentation only). -/
structure ScraperResult where
  success : Bool
  products : List SimpleProduct
  totalFound : ℕ
  error : Option String := none
deriving DecidableEq

/-- `ScraperService.scrapeWithSelectors`: run the page loop, then normalize
every accumulated record against the original search url.  A fetch or
pagination error propagates as an exception.  `opts` is accepted but only its
`waitFor` steers the browser wait: in particular `opts.maxPages` is never
read anywhere in the loop. -/
def scrapeWithSelectors (w : World) (url : String) (config : StoreConfig)
    (opts : Option ScrapeOptions) (fuel : ℕ) : Except String ScraperResult :=
  let out := scrapeLoop w config fuel url 1 []
  match out.err with
  | some e => .error e
  | none =>
    let normalizedProducts := normalizeProducts out.products url
    .ok { success := true, products := normalizedProducts,
          totalFound := normalizedProducts.length }

/-- Number of page fetches one store scrape issues (the ghost count of the
loop). -/
def fetchCount (w : World) (url : String) (config : StoreConfig) (fuel : ℕ) : ℕ :=
  (scrapeLoop w config fuel url 1 []).fetches

/-- `ScraperService.scrapeProducts`: requires a config for the domain
(otherwise throws), and catches every error of the selector scrape into a
`success = false` result — it never rethrows them. -/
def scrapeProducts (w : World) (url : String) (opts : Option ScrapeOptions) (fuel : ℕ) :
    Except String ScraperResult :=
  match getConfigFromUrl w url with
  | none => .error "No existe configuración para este dominio."
  | some config =>
    match scrapeWithSelectors w url config opts fuel with
    | .ok r => .ok r
    | .error e => .ok { success := false, products := [], totalFound := 0, error := some e }

end Scraper

namespace Scraper

/-! ## OpenAIService -/

/-- `FilterResult` of src/services/openai.service.ts (the `summary` strings
are presentation only and left empty on the success path, where the source
echoes the LLM reasoning). -/
structure FilterResult where
  products : List SimpleProduct
  summary : String
  totalFiltered : ℕ
  originalCount : ℕ
deriving DecidableEq

/-- Stable insertion into an ascending-by-price list. -/
def insertByPriceAsc (p : SimpleProduct) : List SimpleProduct → List SimpleProduct
  | [] => [p]
  | q :: t => if p.price ≤ q.price then p :: q :: t else q :: insertByPriceAsc p t

/-- The stable ascending `sort((a, b) => a.price - b.price)` of
`filterProductsByRelevance` (JS array sort is stable). -/
def sortByPriceAsc : List SimpleProduct → List SimpleProduct
  | [] => []
  | p :: t => insertByPriceAsc p (sortByPriceAsc t)

/-- JS `arr[idx - 1]` for a 1-based LLM index: `undefined` (here `none`) when
out of range. -/
def indexLookup (l : List SimpleProduct) (idx : ℤ) : Option SimpleProduct :=
  if 1 ≤ idx then l.get? (idx - 1).toNat else none

/-- `OpenAIService.filterProductsByRelevance`: optional word pre-filter above
50 products, then the LLM selection; any throw inside the call is caught and
falls back to the FIRST `topN` products — not to the unchanged list. -/
def filterProductsByRelevance (w : World) (products : List SimpleProduct)
    (query : String) (topN : ℕ) : FilterResult :=
  let productsToAnalyze :=
    if 50 < products.length then
      let searchWords := jsSplit (jsToLower query) ' '
      let pre := (products.filter (fun p =>
        searchWords.any (fun word => jsIncludes (jsToLower p.product_name) word))).take 50
      if pre.isEmpty then products.take 50 else pre
    else products
  match w.filterResponse productsToAnalyze query topN with
  | .error _ =>
    { products := products.take topN,
      summary := "Error en filtrado, mostrando primeros productos",
      totalFiltered := min topN products.length,
      originalCount := products.length }
  | .ok selectedIndices =>
    let filteredProducts :=
      sortByPriceAsc ((selectedIndices.filterMap (indexLookup productsToAnalyze)).take topN)
    { products := filteredProducts, summary := "",
      totalFiltered := filteredProducts.length,
      originalCount := products.length }

/-- `OpenAIService.applyNaturalLanguageFilter`: LLM selection over the first
50 products; any throw is caught and falls back to the whole unchanged
list. -/
def applyNaturalLanguageFilter (w : World) (products : List SimpleProduct)
    (query : String) : FilterResult :=
  let productsToAnalyze := products.take 50
  match w.nlFilterResponse productsToAnalyze query with
  | .error _ =>
    { products := products, summary := "Error aplicando filtro, mostrando todos",
      totalFiltered := products.length, originalCount := products.length }
  | .ok selectedIndices =>
    let filteredProducts := selectedIndices.filterMap (indexLookup productsToAnalyze)
    { products := filteredProducts, summary := "",
      totalFiltered := filteredProducts.length,
      originalCount := products.length }

/-- JS `arr[idx - 1]` on the store-tagged list of `sortProductsBySimilarity`. -/
def indexLookupTagged (l : List (String × SimpleProduct)) (idx : ℤ) :
    Option (String × SimpleProduct) :=
  if 1 ≤ idx then l.get? (idx - 1).toNat else none

/-- `OpenAIService.sortProductsBySimilarity`: tag every product with its
store, cap at 50, reorder by the LLM index list, then regroup per store
(falling back to the store's own list when the reordered selection holds
nothing for it).  A throw or missing response returns the input unchanged. -/
def sortProductsBySimilarity (w : World)
    (storeProducts : List (String × List SimpleProduct)) :
    List (String × List SimpleProduct) :=
  let allProducts := storeProducts.flatMap (fun sp => sp.2.map (fun p => (sp.1, p)))
  if allProducts.isEmpty then storeProducts
  else
    let productsToSort := allProducts.take 50
    match w.sortResponse with
    | .error _ => storeProducts
    | .ok none => storeProducts
    | .ok (some orderedIndices) =>
      let sortedProducts := orderedIndices.filterMap (indexLookupTagged productsToSort)
      storeProducts.map (fun sp =>
        let storeOrdered := (sortedProducts.filter (fun t => t.1 == sp.1)).map (fun t => t.2)
        (sp.1, if 0 < storeOrdered.length then storeOrdered else sp.2))

/-! ## MultiStoreSearchService -/

/-- `SearchOptions` of multi-store-search.service.ts (the `type` field is
never branched on). -/
structure SearchOptions where
  topN : Option ℕ := none
  filter : Option String := none
  maxPages : Option ℕ := none

/-- `StoreSearchResult` (duration omitted: wall-clock time is not
modelled). -/
structure StoreSearchResult where
  store : String
  domain : String
  products : List SimpleProduct
  count : ℕ
  success : Bool
  error : Option String := none
  searchUrl : String
deriving DecidableEq

/-- `MultiStoreSearchResult` (duration omitted). -/
structure MultiStoreSearchResult where
  search : String
  totalStores : ℕ
  successfulStores : ℕ
  totalProducts : ℕ
  stores : List StoreSearchResult
  filtered : Bool
  filterSummary : Option String := none
deriving DecidableEq

/-- JS truthiness of an optional number: present and non-zero. -/
def numTruthy (o : Option ℕ) : Bool :=
  match o with
  | some n => n ≠ 0
  | none => false

/-- One entry of the `searchUrls` list the coordinator builds. -/
structure SiteRef where
  domain : String
  url : String
  name : String
deriving DecidableEq

/-- Steps 1–2 of `searchAllStores`: list the configured stores and build one
search url per store. -/
def searchSites (w : World) (query : String) : List SiteRef :=
  (listAvailableStores w).filterMap (fun domain =>
    match buildSearchUrl w domain query, getConfig w domain with
    | some url, some config =>
      if url ≠ "" then some { domain := domain, url := url, name := config.name }
      else none
    | _, _ => none)

/-- Step 3 of `searchAllStores` for one store: scrape and wrap; the `catch`
branch fires only when `scrapeProducts` throws (no config), while every
scrape failure it caught internally still lands in the `success := true`
branch. -/
def scrapeArm (w : World) (options : SearchOptions) (fuel : ℕ) (site : SiteRef) :
    StoreSearchResult :=
  let scrapeOptions :=
    if numTruthy options.maxPages then some { maxPages := options.maxPages } else none
  match scrapeProducts w site.url scrapeOptions fuel with
  | .ok result =>
    { store := site.name, domain := site.domain, products := result.products,
      count := result.products.length, success := true, searchUrl := site.url }
  | .error e =>
    { store := site.name, domain := site.domain, products := [], count := 0,
      success := false, error := some e, searchUrl := site.url }

/-- Step 5 (topN relevance filtering) of `searchAllStores` for one store. -/
def topNArm (w : World) (query : String) (topN : ℕ) (storeResult : StoreSearchResult) :
    StoreSearchResult :=
  if !storeResult.success || storeResult.products.isEmpty then storeResult
  else
    let filtered := filterProductsByRelevance w storeResult.products query topN
    { storeResult with products := filtered.products, count := filtered.products.length }

/-- Step 6 (natural-language filtering) of `searchAllStores` for one store. -/
def nlArm (w : World) (filterText : String) (storeResult : StoreSearchResult) :
    StoreSearchResult :=
  if !storeResult.success || storeResult.products.isEmpty then storeResult
  else
    let filtered := applyNaturalLanguageFilter w storeResult.products filterText
    { storeResult with products := filtered.products, count := filtered.products.length }

/-- `MultiStoreSearchService.searchAllStores`: build the per-store urls,
scrape all stores, aggregate, optionally topN-filter, optionally apply the
natural-language filter (note: over `storeResults`, the original outcomes,
exactly as the source does), similarity-sort, and assemble the result. -/
def searchAllStores (w : World) (query : String) (options : SearchOptions) (fuel : ℕ) :
    MultiStoreSearchResult :=
  let searchUrls := searchSites w query
  let storeResults := searchUrls.map (scrapeArm w options fuel)
  let successfulStores := (storeResults.filter (fun r => r.success)).length
  let totalProducts : ℕ := storeResults.foldl (fun sum r => sum + r.count) 0
  let filtered1 :=
    if numTruthy options.topN ∧ 0 < totalProducts then
      storeResults.map (topNArm w query (options.topN.getD 0))
    else storeResults
  let summary1 : Option String :=
    if numTruthy options.topN ∧ 0 < totalProducts then
      some ("Top " ++ toString (options.topN.getD 0) ++ " productos más relevantes por tienda")
    else none
  let filtered2 :=
    if optTruthy options.filter ∧ 0 < totalProducts then
      storeResults.map (nlArm w (options.filter.getD ""))
    else filtered1
  let summary2 :=
    if optTruthy options.filter ∧ 0 < totalProducts then options.filter else summary1
  let sortedResults :=
    sortProductsBySimilarity w (filtered2.map (fun r => (r.store, r.products)))
  let finalResults := filtered2.map (fun r =>
    match sortedResults.find? (fun s => s.1 == r.store) with
    | some s => { r with products := s.2 }
    | none => r)
  { search := query
    totalStores := finalResults.length
    successfulStores := successfulStores
    totalProducts := finalResults.foldl (fun sum r => sum + r.count) 0
    stores := finalResults
    filtered := numTruthy options.topN || optTruthy options.filter
    filterSummary := summary2 }

end Scraper

namespace Scraper

/-! ## Fixtures -/

/-- A catalogue item node: a product link and a price cell. -/
def fixItem : Item :=
  [("a", { text := "Taladro Percutor 1/2", attrs := [("href", "/prod/1")] }),
   (".price", { text := "100" })]

/-- The next-page control pointing at `target`. -/
def fixNext (target : String) : List (String × Elem) :=
  [(".next", { text := "Siguiente", attrs := [("href", target)] })]

/-- Page `i` of the five-page fixture site: ten valid items, and pages 1–4
expose a next-page control. -/
def fixPage (elems : List (String × Elem)) : Page :=
  { pageElems := elems,
    containerFound := [".grid"],
    containerItems := [((".grid", ".item"), List.replicate 10 fixItem)] }

/-- Field selectors of the fixture descriptor. -/
def fixSelectors : FieldSelectors :=
  { url := "a", url_attribute := "href",
    title := "a", title_attribute := "text",
    price := ".price", price_attribute := "text" }

/-- Pagination rules of the fixture descriptor: enabled, page budget 2. -/
def fixPagination : PaginationConfig :=
  { enabled := true, next_button := ".next", next_button_attribute := "href",
    max_pages := some 2 }

/-- The fixture descriptor. -/
def fixConfig : StoreConfig :=
  { name := "Fixture",
    currency := "CRC",
    search := { url_template := "https://a.example/s?q={query}" },
    product_list := { container := ".grid", item := ".item", selectors := fixSelectors },
    scraping := { pagination := some fixPagination } }

/-- The five fixture pages, keyed by url. -/
def fixSite : List (String × Page) :=
  [("https://a.example/s?q=x", fixPage (fixNext "/page2")),
   ("https://a.example/page2", fixPage (fixNext "/page3")),
   ("https://a.example/page3", fixPage (fixNext "/page4")),
   ("https://a.example/page4", fixPage (fixNext "/page5")),
   ("https://a.example/page5", fixPage [])]

/-- A world whose only remote content is the fixture site and whose LLM
collaborator times out (fails open). -/
def fixWorld : World :=
  { fetch := fun url =>
      match fixSite.lookup url with
      | some page => .ok page
      | none => .error "net::ERR_NAME_NOT_RESOLVED"
    configs := [("a.example", fixConfig)]
    encode := fun s => s
    filterResponse := fun _ _ _ => .error "Timeout"
    nlFilterResponse := fun _ _ => .error "Timeout"
    sortResponse := .error "Timeout ordenando productos" }

end Scraper

namespace Scraper

/-- An item node with a given name and price text. -/
def itemNamed (nm pr : String) : Item :=
  [("a", { text := nm, attrs := [("href", "/p")] }),
   (".price", { text := pr })]

/-- A listing page without pagination controls. -/
def listPage (items : List Item) : Page :=
  { containerFound := [".grid"],
    containerItems := [((".grid", ".item"), items)] }

/-- A store descriptor without pagination. -/
def simpleConfig (nm tmpl : String) : StoreConfig :=
  { name := nm, currency := "CRC", search := { url_template := tmpl },
    product_list := { container := ".grid", item := ".item", selectors := fixSelectors },
    scraping := {} }

/-- The listing page of fixture store A: two valid items. -/
def pageA : Page :=
  listPage [itemNamed "Taladro A1" "100", itemNamed "Taladro A2" "200"]

/-- The listing page of fixture store C: one valid item. -/
def pageC : Page :=
  listPage [itemNamed "Taladro C1" "300"]

/-- Three registered sites; navigating to store B times out, A and C
succeed.  The LLM collaborator fails open everywhere. -/
def c1World : World :=
  { fetch := fun url =>
      if url = "https://a.example/s?q=taladro" then .ok pageA
      else if url = "https://c.example/s?q=taladro" then .ok pageC
      else .error "Timeout"
    configs :=
      [("a.example", simpleConfig "Tienda A" "https://a.example/s?q={query}"),
       ("b.example", simpleConfig "Tienda B" "https://b.example/s?q={query}"),
       ("c.example", simpleConfig "Tienda C" "https://c.example/s?q={query}")]
    encode := fun s => s
    filterResponse := fun _ _ _ => .error "Timeout"
    nlFilterResponse := fun _ _ => .error "Timeout"
    sortResponse := .error "Timeout ordenando productos" }

/-- The same three sites with store B healthy (it serves store C's page), to
compare sibling outcomes. -/
def c1WorldOk : World :=
  { c1World with
    fetch := fun url =>
      if url = "https://a.example/s?q=taladro" then .ok pageA
      else if url = "https://c.example/s?q=taladro" then .ok pageC
      else if url = "https://b.example/s?q=taladro" then .ok pageC
      else .error "Timeout" }

end Scraper

namespace Scraper

/-- The listing page of fixture store D: three valid items. -/
def pageD : Page :=
  listPage [itemNamed "Taladro D1" "300", itemNamed "Taladro D2" "100",
            itemNamed "Taladro D3" "200"]

/-- One registered site with three records; the relevance-filtering
collaborator's LLM call throws. -/
def c5World : World :=
  { fetch := fun url =>
      if url = "https://d.example/s?q=taladro" then .ok pageD
      else .error "Timeout"
    configs := [("d.example", simpleConfig "Tienda D" "https://d.example/s?q={query}")]
    encode := fun s => s
    filterResponse := fun _ _ _ => .error "Request failed"
    nlFilterResponse := fun _ _ => .error "Request failed"
    sortResponse := .error "Timeout ordenando productos" }

/-- Two registered sites (two and one records); the similarity-sorting
collaborator replies with a single index, dropping every other record. -/
def c6World : World :=
  { fetch := fun url =>
      if url = "https://a.example/s?q=taladro" then .ok pageA
      else if url = "https://c.example/s?q=taladro" then .ok pageC
      else .error "Timeout"
    configs :=
      [("a.example", simpleConfig "Tienda A" "https://a.example/s?q={query}"),
       ("c.example", simpleConfig "Tienda C" "https://c.example/s?q={query}")]
    encode := fun s => s
    filterResponse := fun _ _ _ => .error "Timeout"
    nlFilterResponse := fun _ _ => .error "Timeout"
    sortResponse := .ok (some [1]) }

end Scraper

namespace Scraper

/-- Modelled from the spec: the page budget in force for one call — the
per-call `maxPages` override when present, otherwise the descriptor's
`max_pages` default.  (The code itself never reads either value; this
definition exists to state the spec's budget claim.) -/
def specEffectivePageBudget (opts : Option ScrapeOptions) (config : StoreConfig) :
    Option ℕ :=
  match opts with
  | some o =>
    match o.maxPages with
    | some m => some m
    | none => (config.scraping.pagination).bind (fun p => p.max_pages)
  | none => (config.scraping.pagination).bind (fun p => p.max_pages)

/-- A listing page whose only item has the fractional price text `0.3`. -/
def pageP : Page :=
  listPage [itemNamed "Producto X" "0.3"]

/-- Descriptor for the fractional-price fixture. -/
def c7Config : StoreConfig :=
  simpleConfig "Tienda P" "https://p.example/s?q={query}"

/-- The record store C's listing page extracts (for instantiating the
normalization-shape theorem). -/
def sampleRecordC : ExtractedProduct :=
  { url := "/p", product_name := "Taladro C1", price := 300, currency := some "CRC" }

/-- The normalized records store D's scrape produces. -/
def productsD : List SimpleProduct :=
  [{ url := "https://d.example/p", product_name := "Taladro D1", price := 300,
     currency := some "CRC" },
   { url := "https://d.example/p", product_name := "Taladro D2", price := 100,
     currency := some "CRC" },
   { url := "https://d.example/p", product_name := "Taladro D3", price := 200,
     currency := some "CRC" }]

/-- The fixture field selectors extended with an image selector. -/
def c9Selectors : FieldSelectors :=
  { fixSelectors with image := some ".img" }

/-- A descriptor that also configures an image selector. -/
def c9Config : StoreConfig :=
  { name := "Tienda E", currency := "CRC",
    search := { url_template := "https://e.example/s?q={query}" },
    product_list := { container := ".grid", item := ".item", selectors := c9Selectors },
    scraping := {} }

/-- A listing page whose item node has no element under the image selector,
so the image field is extracted as the empty string. -/
def c9Page : Page :=
  listPage [itemNamed "Producto X" "100"]

/-- A raw record whose url field was extracted as empty and whose image
field was extracted as empty. -/
def c9RecEmptyUrl : ExtractedProduct :=
  { url := "", product_name := "Producto X", price := 100, image := some "" }

/-- The console lines `extractProductList` prints — its only side effect
(the `SelectorExtractorService` class has no fields). -/
def extractDiagnostics (page : Page) (config : StoreConfig) : List String :=
  if page.containerFound.contains config.product_list.container then
    ["productos extraídos usando selectores"]
  else ["Contenedor no encontrado: " ++ config.product_list.container]

/-- One extractor call as a stateful process over the ambient console: the
log grows, and the record list is produced. -/
def extractWithConsole (st : List String) (page : Page) (config : StoreConfig) :
    List ExtractedProduct × List String :=
  (extractProductList page config, st ++ extractDiagnostics page config)

/-- A sequence of extractor calls threaded through the ambient console
state: the only state the source touches between extractions. -/
def runExtractions (st : List String) :
    List (Page × StoreConfig) → List (List ExtractedProduct) × List String
  | [] => ([], st)
  | pc :: rest =>
    let r := extractWithConsole st pc.1 pc.2
    let rs := runExtractions r.2 rest
    (r.1 :: rs.1, rs.2)

end Scraper

namespace Scraper

/-! ## Helper lemmas -/

theorem head_false_of_dropWhile {α : Type _} (p : α → Bool) (l : List α) (c : α)
    (t : List α) (h : l.dropWhile p = c :: t) : p c = false := by
  induction l with
  | nil => cases h
  | cons a t2 ih =>
    cases hpa : p a with
    | true =>
      simp only [List.dropWhile_cons, hpa, if_true] at h
      exact ih h
    | false =>
      simp only [List.dropWhile_cons, hpa, Bool.false_eq_true, if_false,
        List.cons.injEq] at h
      exact h.1 ▸ hpa

theorem dropWhile_rdropWhile_dropWhile {α : Type _} (p : α → Bool) (l : List α) :
    List.dropWhile p (List.rdropWhile p (List.dropWhile p l)) =
      List.rdropWhile p (List.dropWhile p l) := by
  cases hc : List.rdropWhile p (List.dropWhile p l) with
  | nil => rfl
  | cons c t =>
    obtain ⟨r, hr⟩ := List.rdropWhile_prefix p (List.dropWhile p l)
    rw [hc] at hr
    have hcfalse : p c = false := head_false_of_dropWhile p l c (t ++ r) hr.symm
    simp [List.dropWhile_cons, hcfalse]

theorem jsTrimChars_idem (l : List Char) :
    jsTrimChars (jsTrimChars l) = jsTrimChars l := by
  show List.rdropWhile Char.isWhitespace
      (List.dropWhile Char.isWhitespace
        (List.rdropWhile Char.isWhitespace (List.dropWhile Char.isWhitespace l))) =
    List.rdropWhile Char.isWhitespace (List.dropWhile Char.isWhitespace l)
  rw [dropWhile_rdropWhile_dropWhile, List.rdropWhile_idempotent]

theorem jsTrim_idem (s : String) : jsTrim (jsTrim s) = jsTrim s := by
  show (⟨jsTrimChars (jsTrimChars s.data)⟩ : String) = ⟨jsTrimChars s.data⟩
  rw [jsTrimChars_idem]

/-- Every value `extractAttribute` produces is empty or a `jsTrim` image. -/
theorem extractAttribute_trim (item : Item) (selector attrName : String) :
    extractAttribute item selector attrName = "" ∨
      ∃ s, extractAttribute item selector attrName = jsTrim s := by
  unfold extractAttribute
  cases List.lookup selector item with
  | none => exact Or.inl rfl
  | some e =>
    by_cases ht : attrName = "text"
    · exact Or.inr ⟨e.text, by simp [ht]⟩
    · by_cases hh : attrName = "html"
      · cases hi : e.innerHtml with
        | none => simp [ht, hh, hi]
        | some h => exact Or.inr ⟨h, by simp [ht, hh, hi]⟩
      · cases ha : e.attr attrName with
        | none => simp [ht, hh, ha]
        | some v => exact Or.inr ⟨v, by simp [ht, hh, ha]⟩

theorem jsRound_eq_floor (q : ℚ) : jsRound q = ⌊q + 1 / 2⌋ := by
  have hden0 : (q.den : ℚ) ≠ 0 := Nat.cast_ne_zero.mpr q.den_nz
  have key : q + 1 / 2 = ((2 * q.num + (q.den : ℤ) : ℤ) : ℚ) / ((2 * q.den : ℕ) : ℚ) := by
    conv_lhs => rw [← Rat.num_div_den q]
    push_cast
    field_simp
    ring
  rw [key, Rat.floor_intCast_div_natCast, jsRound]
  push_cast
  rfl

theorem jsRound_nonneg (q : ℚ) (h : 0 < q) : 0 ≤ jsRound q := by
  rw [jsRound_eq_floor]
  exact Int.floor_nonneg.mpr (by linarith)

theorem jsRound_pos (q : ℚ) (h : 1 / 2 ≤ q) : 0 < jsRound q := by
  rw [jsRound_eq_floor]
  have h1 : (1 : ℤ) ≤ ⌊q + 1 / 2⌋ := Int.le_floor.mpr (by push_cast; linarith)
  omega

end Scraper

namespace Scraper

set_option maxHeartbeats 1000000 in
/-- Every object `detectPagination` successfully returns leaves the phantom
`nextUrl` property unassigned. -/
theorem detectPagination_nextUrl_none (page : Page) (pconf : PaginationConfig)
    (urlc : String) (info : PaginationInfo)
    (h : detectPagination page pconf urlc = .ok info) : info.nextUrl = none := by
  simp only [detectPagination] at h
  repeat' split at h
  all_goals try exact Except.noConfusion h
  all_goals rw [← Except.ok.inj h]

/-- With any fuel at all, the scrape loop issues exactly one fetch beyond the
pages already counted: the continuation test reads `info.nextUrl`, which
`detectPagination` never sets. -/
theorem scrapeLoop_fetches (w : World) (config : StoreConfig) (fuel : ℕ)
    (hfuel : 1 ≤ fuel) (urlc : String) (pn : ℕ) (acc : List ExtractedProduct) :
    (scrapeLoop w config fuel urlc pn acc).fetches = pn := by
  match fuel, hfuel with
  | fuel + 1, _ =>
    rw [scrapeLoop]
    cases hfetch : w.fetch urlc with
    | error e => simp [hfetch]
    | ok page =>
      simp only [hfetch]
      cases hp : config.scraping.pagination with
      | none => simp [hp]
      | some pconf =>
        cases he : pconf.enabled with
        | false => simp [hp, he]
        | true =>
          simp only [hp, he, Bool.not_true, Bool.false_eq_true, if_false]
          cases hd : detectPagination page pconf urlc with
          | error e => simp [hd]
          | ok info =>
            have hnone : info.nextUrl = none :=
              detectPagination_nextUrl_none page pconf urlc info hd
            simp [hd, hnone, optTruthy]

/-- The whole store scrape issues exactly one page fetch. -/
theorem fetchCount_eq_one (w : World) (url : String) (config : StoreConfig)
    (fuel : ℕ) (hfuel : 1 ≤ fuel) : fetchCount w url config fuel = 1 :=
  scrapeLoop_fetches w config fuel hfuel url 1 []

/-- A failing similarity collaborator leaves the per-store lists untouched. -/
theorem sortProductsBySimilarity_error (w : World)
    (X : List (String × List SimpleProduct)) (e : String)
    (h : w.sortResponse = .error e) : sortProductsBySimilarity w X = X := by
  simp [sortProductsBySimilarity, h]

theorem foldl_add_count (l : List StoreSearchResult) (init : ℕ) :
    l.foldl (fun sum r => sum + r.count) init = init + (l.map (fun r => r.count)).sum := by
  induction l generalizing init with
  | nil => simp
  | cons x t ih => simp [List.foldl_cons, ih, Nat.add_assoc]

theorem find_store_self (l : List StoreSearchResult) (r : StoreSearchResult)
    (hmem : r ∈ l) (hnd : (l.map (fun x => x.store)).Nodup) :
    (l.map (fun x => (x.store, x.products))).find? (fun s => s.1 == r.store) =
      some (r.store, r.products) := by
  induction l with
  | nil => cases hmem
  | cons x t ih =>
    rw [List.map_cons, List.find?_cons]
    rcases List.mem_cons.mp hmem with heq | hmemt
    · subst heq; simp
    · have hx : x.store ∉ t.map (fun y => y.store) :=
        (List.nodup_cons.mp (by simpa using hnd)).1
      have hne : (x.store == r.store) = false := by
        refine beq_eq_false_iff_ne.mpr ?_
        intro heq
        exact hx (heq ▸ List.mem_map_of_mem (fun y => y.store) hmemt)
      simp only [hne]
      exact ih hmemt (List.nodup_cons.mp (by simpa using hnd)).2

/-- When the similarity pass returns its input, the substitution step of
`searchAllStores` is the identity (store names are assumed distinct, as they
are per config file). -/
theorem map_find_self (l : List StoreSearchResult)
    (hnd : (l.map (fun x => x.store)).Nodup) :
    (l.map (fun r =>
      match (l.map (fun x => (x.store, x.products))).find? (fun s => s.1 == r.store) with
      | some s => { r with products := s.2 }
      | none => r)) = l := by
  conv_rhs => rw [← List.map_id l]
  refine List.map_congr_left ?_
  intro r hr
  rw [find_store_self l r hr hnd]
  rfl

end Scraper

namespace Scraper

theorem scrapeArm_store (w : World) (opts : SearchOptions) (fuel : ℕ) (site : SiteRef) :
    (scrapeArm w opts fuel site).store = site.name := by
  simp only [scrapeArm]
  repeat' split
  all_goals rfl

theorem topNArm_store (w : World) (q : String) (n : ℕ) (x : StoreSearchResult) :
    (topNArm w q n x).store = x.store := by
  simp only [topNArm]
  split <;> rfl

/-! ## Claim theorems -/

/-- C1: for 3 registered sites where exactly one site's navigation times out,
the spec claims `successfulStores == 2` and a failing outcome with
`success == false` and the error set.  The code actually reports
`successfulStores == 3` and `success == true` with no error on the failing
site (its records are empty), because `scrapeProducts` swallows the
navigation error and `searchAllStores` never reads `result.success`; the
sibling sites' outcomes are indeed unaffected (they equal their outcomes in
a world where site B is healthy). -/
theorem c1_fleet_timeout_eval :
    (searchAllStores c1World "taladro" {} 3).totalStores = 3 ∧
    (searchAllStores c1World "taladro" {} 3).successfulStores = 3 ∧
    ((searchAllStores c1World "taladro" {} 3).stores.map
      (fun s => (s.store, s.success, s.products.length, s.error))) =
      [("Tienda A", true, 2, none), ("Tienda B", true, 0, none),
       ("Tienda C", true, 1, none)] ∧
    ((searchAllStores c1World "taladro" {} 3).stores[0]? =
      (searchAllStores c1WorldOk "taladro" {} 3).stores[0]?) ∧
    ((searchAllStores c1World "taladro" {} 3).stores[2]? =
      (searchAllStores c1WorldOk "taladro" {} 3).stores[2]?) ∧
    ¬ (searchAllStores c1World "taladro" {} 3).successfulStores = 2 := by
  decide

/-- C3: a descriptor with pagination enabled and page budget 2, against a
fixture site of 5 pages of 10 valid items each whose first page exposes a
resolvable next-page control (as do pages 2–4).  The spec claims exactly 2
fetched pages and 20 records; the code fetches exactly 1 page and returns
10 records, because the loop tests `paginationInfo.nextUrl` (never assigned;
`detectPagination` assigns `nextPageUrl`) and never consults `max_pages`. -/
theorem c3_budget_two_fixture_eval :
    fixPagination.max_pages = some 2 ∧
    fixPagination.enabled = true ∧
    (detectPagination (fixPage (fixNext "/page2")) fixPagination
        "https://a.example/s?q=x" =
      .ok { hasNextPage := true, nextPageUrl := some "https://a.example/page2" }) ∧
    fetchCount fixWorld "https://a.example/s?q=x" fixConfig 10 = 1 ∧
    ((scrapeWithSelectors fixWorld "https://a.example/s?q=x" fixConfig none 10).map
      (fun r => r.products.length)) = .ok 10 ∧
    ¬ fetchCount fixWorld "https://a.example/s?q=x" fixConfig 10 = 2 := by
  decide

/-- C4: the spec (and STORES_CONFIG.md) claim the price text `"₡49.950"`
normalizes to the integer 49950.  The code keeps the decimal point when it
strips the currency glyph, so `parseFloat` yields 49.95, which rounds to 50 —
not 49950.  The other two parts hold: `"2.499e5"` is recognised as
scientific notation and parses to 249900, and a non-numeric price parses to
0, so the record is dropped. -/
theorem c4_price_parsing_eval :
    extractPriceText "₡49.950" = mkRat 999 20 ∧
    jsRound (extractPriceText "₡49.950") = 50 ∧
    ¬ extractPriceText "₡49.950" = 49950 ∧
    extractPriceText "2.499e5" = 249900 ∧
    extractPriceText "Consultar precio" = 0 ∧
    extractProductList (listPage [itemNamed "Producto Y" "Consultar precio"])
      c7Config = [] := by
  decide

/-- C5 counterexample: one registered site scrapes three records and the
relevance-filtering collaborator's LLM call throws; the claim says the
outcome keeps the original list unchanged, but the coordinator's outcome
holds only the first 2 records (`products.slice(0, topN)`), not the original
3. -/
theorem c5_counterexample :
    ((searchAllStores c5World "taladro" {} 2).stores.map
      (fun s => s.products.length) = [3]) ∧
    (c5World.filterResponse = fun _ _ _ => .error "Request failed") ∧
    ((searchAllStores c5World "taladro" { topN := some 2 } 2).stores.map
      (fun s => (s.success, s.products.length))) = [(true, 2)] ∧
    ¬ ((searchAllStores c5World "taladro" { topN := some 2 } 2).stores.map
      (fun s => s.products.length) = [3]) := by
  exact ⟨by decide, rfl, by decide, by decide⟩

/-- C6 counterexample: two sites (2 and 1 records), the similarity
collaborator replies with the single index `[1]`; the substituted lists hold
1 + 1 records while `totalProducts` (a sum of stale `count` fields) reports
3, so `totalProducts` is not the sum of the records lengths. -/
theorem c6_counterexample :
    (searchAllStores c6World "taladro" {} 2).totalProducts = 3 ∧
    ((searchAllStores c6World "taladro" {} 2).stores.map
      (fun s => s.products.length)).sum = 2 ∧
    ¬ (searchAllStores c6World "taladro" {} 2).totalProducts =
        ((searchAllStores c6World "taladro" {} 2).stores.map
          (fun s => s.products.length)).sum := by
  decide

/-- C7 counterexample: a record whose price text `"0.3"` parses to 0.3 > 0
and so survives extraction-time validation, but `Math.round` maps it to 0 in
normalization — the normalized record violates `price > 0`. -/
theorem c7_counterexample :
    ((extractProductList pageP c7Config).map (fun p => p.price) = [mkRat 3 10]) ∧
    (∀ p ∈ extractProductList pageP c7Config, p.product_name ≠ "" ∧ 0 < p.price) ∧
    ((normalizeProducts (extractProductList pageP c7Config)
      "https://p.example/s?q=x").map (fun q => q.price) = [0]) ∧
    ¬ (∀ q ∈ normalizeProducts (extractProductList pageP c7Config)
        "https://p.example/s?q=x", 0 < q.price) := by
  decide

end Scraper

namespace Scraper

theorem slash_not_http (url : String) (h : jsStartsWith url "/" = true) :
    (jsStartsWith url "http://" || jsStartsWith url "https://") = false := by
  cases hd : url.data with
  | nil => simp [jsStartsWith, hd, List.isPrefixOf] at h
  | cons c t =>
    have hc : c = '/' := by
      simp only [jsStartsWith, hd, List.isPrefixOf, Bool.and_eq_true, beq_iff_eq] at h
      exact h.1.symm
    subst hc
    simp [jsStartsWith, hd, List.isPrefixOf]

/-- C2: for every descriptor page budget K (and every per-call maxPages
override, which the claim says takes precedence), one store scrape issues at
most K page fetches.  The bound holds — degenerately: the loop always stops
after exactly one fetch because it tests the never-assigned
`paginationInfo.nextUrl`, and neither `max_pages` nor `maxPages` is ever
consulted. -/
theorem c2_page_budget_bound (w : World) (url : String) (config : StoreConfig)
    (opts : Option ScrapeOptions) (fuel K : ℕ) (hfuel : 1 ≤ fuel)
    (hbudget : specEffectivePageBudget opts config = some K) (hK : 1 ≤ K) :
    fetchCount w url config fuel ≤ K := by
  rw [fetchCount_eq_one w url config fuel hfuel]
  exact hK

theorem c2_page_budget_bound_witness :
    (1 ≤ (10 : ℕ) ∧ specEffectivePageBudget none fixConfig = some 2 ∧ 1 ≤ (2 : ℕ)) ∧
    fetchCount fixWorld "https://a.example/s?q=x" fixConfig 10 ≤ 2 :=
  ⟨⟨by decide, by decide, by decide⟩,
   c2_page_budget_bound fixWorld "https://a.example/s?q=x" fixConfig none 10 2
     (by decide) (by decide) (by decide)⟩

/-- C8: extraction is deterministic and pure.  Any sequence of extractor
calls threaded through the ambient console state (the only state the source
touches) produces, for each (snapshot, descriptor) pair, exactly
`extractProductList` of that pair — independent of the incoming state and of
every other call in the sequence; re-running an identical pair therefore
yields an identical record list. -/
theorem c8_extraction_pure (st : List String) (runs : List (Page × StoreConfig)) :
    (runExtractions st runs).1 = runs.map (fun pc => extractProductList pc.1 pc.2) := by
  induction runs generalizing st with
  | nil => rfl
  | cons pc rest ih => simp [runExtractions, extractWithConsole, ih]

/-- C9 counterexample: a raw record whose image field was extracted as
empty (the configured image selector matches nothing) is claimed to be
normalized to point at the search page; the code's `if (product.image)`
guard instead omits the image from the normalized record entirely. -/
theorem c9_counterexample :
    ((extractProductList c9Page c9Config).map (fun p => p.image) = [some ""]) ∧
    ((normalizeProducts (extractProductList c9Page c9Config)
      "https://store.example/search?q=x").map (fun q => q.image) = [none]) ∧
    ¬ ((normalizeProducts (extractProductList c9Page c9Config)
      "https://store.example/search?q=x").map (fun q => q.image) =
        [some "https://store.example/search?q=x"]) := by
  decide

/-- C9 amended: `makeAbsoluteUrl` returns the base for an empty url, passes
`http://`/`https://` urls through unchanged, resolves a `/`-prefixed url
against the base origin, and returns the base whenever the URL constructor
would throw — so a record whose url was extracted as empty is normalized to
point at the search page; a record whose image was extracted as empty has
the image omitted from the normalized record entirely (see the
counterexample), not pointed at the search page. -/
theorem c9_url_normalization_amended (p : ExtractedProduct) (url baseUrl : String) :
    (url = "" → makeAbsoluteUrl url baseUrl = baseUrl) ∧
    ((jsStartsWith url "http://" || jsStartsWith url "https://") = true →
      makeAbsoluteUrl url baseUrl = url) ∧
    (url ≠ "" → (jsStartsWith url "http://" || jsStartsWith url "https://") = false →
      jsParseUrl baseUrl = none → makeAbsoluteUrl url baseUrl = baseUrl) ∧
    (∀ b, jsStartsWith url "/" = true → jsParseUrl baseUrl = some b →
      makeAbsoluteUrl url baseUrl = b.origin ++ url) ∧
    (p.url = "" → (normalizeOne baseUrl p).url = baseUrl) ∧
    ((p.image = some "" ∨ p.image = none) → (normalizeOne baseUrl p).image = none) := by
  refine ⟨?_, ?_, ?_, ?_, ?_, ?_⟩
  · intro h; subst h; rfl
  · intro h
    have hne : url ≠ "" := by
      intro he; subst he
      simp [jsStartsWith, List.isPrefixOf] at h
    unfold makeAbsoluteUrl
    rw [if_neg hne, if_pos h]
  · intro hne hst hparse
    unfold makeAbsoluteUrl
    rw [if_neg hne, if_neg (by simp [hst]), hparse]
  · intro b hslash hparse
    have hne : url ≠ "" := by
      intro he; subst he
      simp [jsStartsWith, List.isPrefixOf] at hslash
    have hh := slash_not_http url hslash
    unfold makeAbsoluteUrl
    rw [if_neg hne, if_neg (by simp [hh]), hparse]
    simp [hslash]
  · intro h
    show makeAbsoluteUrl p.url baseUrl = baseUrl
    rw [h]
    rfl
  · intro h
    rcases h with h | h <;> simp [normalizeOne, h]

theorem c9_url_normalization_amended_witness :
    makeAbsoluteUrl "" "https://store.example/search?q=x" =
      "https://store.example/search?q=x" ∧
    makeAbsoluteUrl "https://other.example/a" "https://store.example/search?q=x" =
      "https://other.example/a" ∧
    makeAbsoluteUrl "rel/path" "not a url" = "not a url" ∧
    makeAbsoluteUrl "/p/123" "https://store.example/search?q=x" =
      "https://store.example/p/123" ∧
    (normalizeOne "https://store.example/search?q=x" c9RecEmptyUrl).url =
      "https://store.example/search?q=x" ∧
    (normalizeOne "https://store.example/search?q=x" c9RecEmptyUrl).image = none :=
  ⟨(c9_url_normalization_amended c9RecEmptyUrl ""
      "https://store.example/search?q=x").1 rfl,
   (c9_url_normalization_amended c9RecEmptyUrl "https://other.example/a"
      "https://store.example/search?q=x").2.1 (by decide),
   (c9_url_normalization_amended c9RecEmptyUrl "rel/path" "not a url").2.2.1
     (by decide) (by decide) (by decide),
   (c9_url_normalization_amended c9RecEmptyUrl "/p/123"
      "https://store.example/search?q=x").2.2.2.1
     { scheme := "https", host := "store.example", port := "",
       path := "/search", query := "q=x" } (by decide) (by decide),
   (c9_url_normalization_amended c9RecEmptyUrl "x"
      "https://store.example/search?q=x").2.2.2.2.1 rfl,
   (c9_url_normalization_amended c9RecEmptyUrl "x"
      "https://store.example/search?q=x").2.2.2.2.2 (Or.inl rfl)⟩

/-- C6 amended: in every fleet result, `totalStores` is the number of store
entries, and `totalProducts` is the sum of the entries' `count` fields —
which can exceed the records-list lengths after the similarity-reorder pass
substitutes a truncated list (see the counterexample). -/
theorem c6_totals_amended (w : World) (query : String) (options : SearchOptions)
    (fuel : ℕ) :
    (searchAllStores w query options fuel).totalStores =
      (searchAllStores w query options fuel).stores.length ∧
    (searchAllStores w query options fuel).totalProducts =
      ((searchAllStores w query options fuel).stores.map (fun s => s.count)).sum := by
  constructor
  · rfl
  · simp only [searchAllStores]
    rw [foldl_add_count]
    simp

end Scraper

namespace Scraper

/-- C10: when both a topN count and a non-empty natural-language filter are
supplied, the natural-language pass is applied to each site's original
unfiltered outcomes (`storeResults`), not to the topN pass's output, so the
topN filtering result is discarded: the whole fleet result equals the one
computed with no topN at all. -/
theorem c10_topn_discarded (w : World) (query f : String) (tn mp : Option ℕ)
    (fuel : ℕ) (hf : f ≠ "") :
    searchAllStores w query { topN := tn, filter := some f, maxPages := mp } fuel =
      searchAllStores w query { topN := none, filter := some f, maxPages := mp } fuel := by
  have hof : optTruthy (some f) = true := by simp [optTruthy, hf]
  have harm : scrapeArm w { topN := tn, filter := some f, maxPages := mp } fuel =
      scrapeArm w { topN := none, filter := some f, maxPages := mp } fuel := rfl
  simp only [searchAllStores, harm]
  by_cases htp : 0 < List.foldl (fun sum r => sum + r.count) 0
      ((searchSites w query).map
        (scrapeArm w { topN := none, filter := some f, maxPages := mp } fuel))
  · simp [htp, hof, Bool.or_true]
  · simp [htp, hof, Bool.or_true, numTruthy]

theorem c10_topn_discarded_witness :
    searchAllStores c1World "taladro"
        { topN := some 2, filter := some "sin accesorios", maxPages := none } 3 =
      searchAllStores c1World "taladro"
        { topN := none, filter := some "sin accesorios", maxPages := none } 3 :=
  c10_topn_discarded c1World "taladro" "sin accesorios" (some 2) none 3 (by decide)

end Scraper

namespace Scraper

/-- C7 amended: every record produced by normalization of an extracted list
has a trimmed non-empty name, never carries availability, and a non-negative
integer price that is strictly positive whenever the extracted price is at
least 1/2 (prices in (0, 1/2) survive extraction but round to 0 — see the
counterexample). -/
theorem c7_normalized_shape_amended (page : Page) (config : StoreConfig)
    (baseUrl : String) :
    ∀ p ∈ extractProductList page config,
      jsTrim (normalizeOne baseUrl p).product_name =
          (normalizeOne baseUrl p).product_name ∧
      (normalizeOne baseUrl p).product_name ≠ "" ∧
      (normalizeOne baseUrl p).availability = none ∧
      0 ≤ (normalizeOne baseUrl p).price ∧
      (1 / 2 ≤ p.price → 0 < (normalizeOne baseUrl p).price) := by
  intro p hp
  have hchar : p.product_name ≠ "" ∧ 0 < p.price ∧ ∃ s, p.product_name = jsTrim s := by
    simp only [extractProductList] at hp
    split at hp
    · rw [List.mem_filterMap] at hp
      obtain ⟨item, hitem, hsome⟩ := hp
      simp only [Option.ite_none_right_eq_some, Option.some.injEq] at hsome
      obtain ⟨⟨hn0, hp0⟩, heq⟩ := hsome
      subst heq
      refine ⟨hn0, hp0, ?_⟩
      rcases extractAttribute_trim item config.product_list.selectors.title
          config.product_list.selectors.title_attribute with h0 | ⟨s, hs⟩
      · exact absurd h0 hn0
      · exact ⟨s, hs⟩
    · cases hp
  obtain ⟨hname, hprice, s, hs⟩ := hchar
  refine ⟨?_, ?_, rfl, jsRound_nonneg _ hprice, fun hhalf => jsRound_pos _ hhalf⟩
  · show jsTrim (jsTrim p.product_name) = jsTrim p.product_name
    exact jsTrim_idem _
  · show jsTrim p.product_name ≠ ""
    rw [hs, jsTrim_idem, ← hs]
    exact hname

theorem c7_normalized_shape_amended_witness :
    sampleRecordC ∈ extractProductList pageC c7Config ∧
    (jsTrim (normalizeOne "https://c.example/s?q=x" sampleRecordC).product_name =
        (normalizeOne "https://c.example/s?q=x" sampleRecordC).product_name ∧
      (normalizeOne "https://c.example/s?q=x" sampleRecordC).product_name ≠ "" ∧
      (normalizeOne "https://c.example/s?q=x" sampleRecordC).availability = none ∧
      0 ≤ (normalizeOne "https://c.example/s?q=x" sampleRecordC).price ∧
      (1 / 2 ≤ sampleRecordC.price →
        0 < (normalizeOne "https://c.example/s?q=x" sampleRecordC).price)) :=
  ⟨by decide,
   c7_normalized_shape_amended pageC c7Config "https://c.example/s?q=x"
     sampleRecordC (by decide)⟩

end Scraper

namespace Scraper

/-- C5 amended: for every world, query and site list with distinct store
names, when a site's scrape succeeded with records `P` (at most 50, so the
pre-filter is a no-op) and the relevance-filtering collaborator's LLM call
fails for it while the similarity pass also fails open, the coordinator's
outcome for that site holds exactly the first `topN` records of `P` in
original order — the collaborator's internal fallback — and the fleet search
still succeeds, reporting every store. -/
theorem c5_filter_fallback_amended (w : World) (query : String) (n fuel i : ℕ)
    (site : SiteRef) (P : List SimpleProduct) (r : ScraperResult) (e s : String)
    (hn : n ≠ 0)
    (hsite : (searchSites w query)[i]? = some site)
    (hnodup : ((searchSites w query).map (fun x => x.name)).Nodup)
    (hscrape : scrapeProducts w site.url none fuel = .ok r)
    (hP : r.products = P)
    (hPne : P ≠ [])
    (hlen : P.length ≤ 50)
    (hfail : w.filterResponse P query n = .error e)
    (hsort : w.sortResponse = .error s) :
    ((searchAllStores w query { topN := some n } fuel).stores)[i]? =
      some { store := site.name, domain := site.domain, products := P.take n,
             count := (P.take n).length, success := true, error := none,
             searchUrl := site.url } ∧
    (searchAllStores w query { topN := some n } fuel).totalStores =
      (searchSites w query).length := by
  have hPe : P.isEmpty = false := by
    cases P with
    | nil => exact absurd rfl hPne
    | cons a t => rfl
  have hlen50 : ¬ 50 < P.length := by omega
  have f2 : scrapeArm w { topN := some n } fuel site =
      { store := site.name, domain := site.domain, products := P,
        count := P.length, success := true, error := none, searchUrl := site.url } := by
    simp [scrapeArm, numTruthy, hscrape, hP]
  have f1 : ((searchSites w query).map (scrapeArm w { topN := some n } fuel))[i]? =
      some { store := site.name, domain := site.domain, products := P,
             count := P.length, success := true, error := none,
             searchUrl := site.url } := by
    rw [List.getElem?_map, hsite, Option.map_some']
    rw [f2]
  have hmem :
      ({ store := site.name, domain := site.domain, products := P,
         count := P.length, success := true, error := none,
         searchUrl := site.url } : StoreSearchResult) ∈
        (searchSites w query).map (scrapeArm w { topN := some n } fuel) :=
    List.mem_iff_getElem?.mpr ⟨i, f1⟩
  have htp : 0 < ((searchSites w query).map
      (scrapeArm w { topN := some n } fuel)).foldl (fun sum r => sum + r.count) 0 := by
    rw [foldl_add_count]
    have hle : P.length ≤ (((searchSites w query).map
        (scrapeArm w { topN := some n } fuel)).map (fun r => r.count)).sum := by
      refine List.single_le_sum (fun x _ => Nat.zero_le x) _ ?_
      exact List.mem_map_of_mem (fun r => r.count) hmem
    have hpos : 0 < P.length := List.length_pos.mpr hPne
    omega
  have f4 : topNArm w query n
      { store := site.name, domain := site.domain, products := P,
        count := P.length, success := true, error := none, searchUrl := site.url } =
      { store := site.name, domain := site.domain, products := P.take n,
        count := (P.take n).length, success := true, error := none,
        searchUrl := site.url } := by
    simp [topNArm, hPe, filterProductsByRelevance, hlen50, hfail]
  have hnames : ((((searchSites w query).map (scrapeArm w { topN := some n } fuel)).map
      (topNArm w query n)).map (fun x => x.store)) =
      (searchSites w query).map (fun x => x.name) := by
    rw [List.map_map, List.map_map]
    refine List.map_congr_left ?_
    intro x _
    simp [Function.comp, topNArm_store, scrapeArm_store]
  have hnodup2 : ((((searchSites w query).map (scrapeArm w { topN := some n } fuel)).map
      (topNArm w query n)).map (fun x => x.store)).Nodup := by
    rw [hnames]; exact hnodup
  have hstores : (searchAllStores w query { topN := some n } fuel).stores =
      ((searchSites w query).map (scrapeArm w { topN := some n } fuel)).map
        (topNArm w query n) := by
    simp only [searchAllStores]
    simp only [numTruthy, hn, ne_eq, not_false_eq_true, htp, and_self, if_true,
      optTruthy, Bool.false_eq_true, false_and, if_false]
    rw [sortProductsBySimilarity_error w _ s hsort]
    exact map_find_self _ hnodup2
  constructor
  · rw [hstores, List.getElem?_map, f1, Option.map_some', f4]
  · have hlen2 : (searchAllStores w query { topN := some n } fuel).totalStores =
        (searchAllStores w query { topN := some n } fuel).stores.length := rfl
    rw [hlen2, hstores, List.length_map, List.length_map]

theorem c5_filter_fallback_amended_witness :
    ((searchAllStores c5World "taladro" { topN := some 2 } 2).stores)[0]? =
      some { store := "Tienda D", domain := "d.example",
             products := productsD.take 2, count := (productsD.take 2).length,
             success := true, error := none,
             searchUrl := "https://d.example/s?q=taladro" } ∧
    (searchAllStores c5World "taladro" { topN := some 2 } 2).totalStores =
      (searchSites c5World "taladro").length :=
  c5_filter_fallback_amended c5World "taladro" 2 2 0
    { domain := "d.example", url := "https://d.example/s?q=taladro",
      name := "Tienda D" }
    productsD
    { success := true, products := productsD, totalFound := 3 }
    "Request failed" "Timeout ordenando productos"
    (by decide) (by decide) (by decide) (by decide) rfl (by decide) (by decide)
    rfl rfl

end Scraper
